import Mathlib

/-!
Verification of the transdirect API client core: the booking status
parser, the booking request/response data model, and the client
authentication state machine.

The Rust sources `src/booking.rs` and `src/client.rs` are embedded
shallowly: pure functions become Lean functions, the mutable client is
passed as explicit state, fallible operations return `Except`, and the
external collaborators (the restson HTTP transport and the serde JSON
machinery) appear as oracle parameters and a small JSON value type, per
the capability interfaces the design describes.
-/

/-- A JSON value, modelling the serde data model that the hand-written
and derived deserializers in `src/booking.rs` consume.  Objects are
association lists of field name to value. -/
inductive Json where
  | null : Json
  | bool (b : Bool) : Json
  | num (n : Int) : Json
  | str (s : String) : Json
  | arr (elems : List Json) : Json
  | obj (fields : List (String × Json)) : Json

/-- The human-readable type name serde reports in mismatch errors. -/
def Json.typeName : Json → String
  | .null => "null"
  | .bool _ => "boolean"
  | .num _ => "number"
  | .str _ => "string"
  | .arr _ => "array"
  | .obj _ => "object"

/-- A serde deserialization error (`D::Error` in `src/booking.rs`):
either a custom message raised by `de::Error::custom`, or a structural
type mismatch raised by the inner deserializer. -/
inductive DeError where
  | custom (msg : String) : DeError
  | invalidType (found : String) (expected : String) : DeError
deriving DecidableEq

/-- `String::deserialize`: succeeds exactly on a JSON string. -/
def stringDeserialize : Json → Except DeError String
  | .str s => .ok s
  | j => .error (.invalidType j.typeName "a string")

/-- `Option::<String>::deserialize` as generated by serde: JSON `null`
becomes `none`, anything else is deserialized as a `String` and wrapped
in `some`. -/
def optionStringDeserialize : Json → Except DeError (Option String)
  | .null => .ok none
  | j => (stringDeserialize j).map some

/-- The booking lifecycle states, from the `BookingStatus` enum in
`src/booking.rs` (ten variants, `New` is the `Default`). -/
inductive BookingStatus where
  | New
  | PendingPayment
  | Paid
  | RequestSent
  | Reviewed
  | Confirmed
  | Cancelled
  | PendingReview
  | RequestFailed
  | BookedManually
deriving DecidableEq

instance : Inhabited BookingStatus := ⟨.New⟩

/-- The error value produced at the wildcard arm of the status match in
`src/booking.rs` line 46: `Err(de::Error::custom("Unrecognised enum value"))`.
This is the deserializer's rendering of the spec's `UnknownStatus` kind. -/
def unknownStatusError : DeError := .custom "Unrecognised enum value"

/-- The exact-match token table of `BookingStatus::deserialize`
(`src/booking.rs` lines 35-47): `match variant.as_str() { ... }`. -/
def BookingStatus.parse (variant : String) : Except DeError BookingStatus :=
  match variant with
  | "new" => .ok .New
  | "pending_payment" => .ok .PendingPayment
  | "paid" => .ok .Paid
  | "request_sent" => .ok .RequestSent
  | "reviewed" => .ok .Reviewed
  | "confirmed" => .ok .Confirmed
  | "cancelled" => .ok .Cancelled
  | "pending_review" => .ok .PendingReview
  | "request_failed" => .ok .RequestFailed
  | "booked_manually" => .ok .BookedManually
  | _ => .error unknownStatusError

/-- `BookingStatus::deserialize` (`src/booking.rs` lines 30-49): first
`String::deserialize(deserializer)?`, then the exact match on the token. -/
def BookingStatus.deserialize (j : Json) : Except DeError BookingStatus :=
  match stringDeserialize j with
  | .error e => .error e
  | .ok variant => BookingStatus.parse variant

/-- The ten wire tokens the status parser accepts. -/
def knownWireTokens : List String :=
  ["new", "pending_payment", "paid", "request_sent", "reviewed",
   "confirmed", "cancelled", "pending_review", "request_failed",
   "booked_manually"]

/-- Modelled from the spec: the inverse serialization operation
`to_wire_token` of section 4.2 is not present in `src/` (the repository
carries no `Serialize` impl for `BookingStatus`); per the spec each
variant maps to its lower-snake-case wire token of section 3. -/
def BookingStatus.to_wire_token : BookingStatus → String
  | .New => "new"
  | .PendingPayment => "pending_payment"
  | .Paid => "paid"
  | .RequestSent => "request_sent"
  | .Reviewed => "reviewed"
  | .Confirmed => "confirmed"
  | .Cancelled => "cancelled"
  | .PendingReview => "pending_review"
  | .RequestFailed => "request_failed"
  | .BookedManually => "booked_manually"

/-- Modelled from the spec: `Account` (declared in `src/account.rs`,
which is not under `src/`) is a party to a shipment with postal address,
contact name and email, integer postcode, state, suburb, kind, country
and company name; the field set matches the construction sites in the
tests of `src/client.rs`. -/
structure Account where
  address : String
  name : String
  email : String
  postcode : Nat
  state : String
  suburb : String
  kind : String
  country : String
  company_name : String
deriving DecidableEq

/-- Modelled from the spec: a `Product` (declared in `src/product.rs`,
not under `src/`) holds dimensions and a quantity in the non-negative
count type `T`; it appears in booking requests and responses. -/
structure Product (T : Type) (U : Type) where
  length : T
  width : T
  height : T
  quantity : T
deriving DecidableEq

/-- Modelled from the spec: a `Service` (declared in `src/product.rs`,
not under `src/`) is a quoted carrier service carrying a price in the
money type `U`. -/
structure Service (U : Type) where
  name : String
  price : U
deriving DecidableEq

/-- Modelled from the spec: the timezone-aware ISO-8601 timestamps of
`BookingResponse` (`time::OffsetDateTime`, an external collaborator),
reduced to an instant plus a zone offset. -/
structure OffsetDateTime where
  unixSeconds : Int
  offsetSeconds : Int
deriving DecidableEq

/-- `BookingRequest` from `src/booking.rs` lines 54-65.  The Rust
borrowed references `Option<&'a Account>` become optional `Account`
values, and the generic parameters `T : Unsigned`, `U : Float` stay as
type parameters. -/
structure BookingRequest (T : Type) (U : Type) where
  declared_value : U
  referrer : String
  requesting_site : String
  tailgate_pickup : Bool
  tailgate_delivery : Bool
  items : List (Product T U)
  sender : Option Account
  receiver : Option Account

/-- The derived `Default` of `BookingRequest`: every field takes its
type's default — `U::default()` is `0.0` for the Rust floating types,
strings are empty, booleans false, the item vector empty, the borrowed
account references `None`. -/
def BookingRequest.default (T U : Type) [Zero U] : BookingRequest T U where
  declared_value := 0
  referrer := ""
  requesting_site := ""
  tailgate_pickup := false
  tailgate_delivery := false
  items := []
  sender := none
  receiver := none

/-- `BookingRequest::new` (`src/booking.rs` lines 92-94): simply
`Default::default()`. -/
def BookingRequest.new (T U : Type) [Zero U] : BookingRequest T U :=
  BookingRequest.default T U

/-- `BookingResponse` from `src/booking.rs` lines 113-140.  The two
`HashMap`s become association lists; `u32` ids carry no arithmetic here
and are modelled as `Nat`. -/
structure BookingResponse (T : Type) (U : Type) where
  id : Nat
  status : BookingStatus
  booked_at : OffsetDateTime
  booked_by : String
  created_at : OffsetDateTime
  updated_at : OffsetDateTime
  declared_value : U
  insured_value : U
  description : Option String
  items : List (Product T U)
  label : String
  notifications : List (String × Bool)
  quotes : List (String × Service U)
  sender : Account
  receiver : Account
  pickup_window : List String
  connote : Option String
  charged_weight : T
  scanned_weight : T
  special_instructions : String
  tailgate_delivery : Bool

/-- The field decoder the serde derive generates for the
`connote: Option<String>` field of `BookingResponse` (`src/booking.rs`
line 135): the field's JSON value goes through
`Option::<String>::deserialize`; a field absent from the body yields
`None` (serde's `missing_field` succeeds for `Option` targets). -/
def BookingResponse.decodeConnoteField (body : List (String × Json)) :
    Except DeError (Option String) :=
  match body.lookup "connote" with
  | some j => optionStringDeserialize j
  | none => .ok none

/-- Modelled from the spec: the crate error taxonomy (`crate::Error`,
declared in a file not under `src/`): `HTTPError(message)` for any
transport, HTTP-status or decode failure — the kind constructed in
`src/client.rs` — and `UnknownStatus` for a wire status token outside
the known set. -/
inductive Error where
  | HTTPError (msg : String) : Error
  | UnknownStatus : Error
deriving DecidableEq

/-- An error of the external restson transport library, the `Error`
that `set_header`, `get` and `post_capture` can return in
`src/client.rs`; the client only ever consumes it through `to_string`,
so the variants carry their diagnostic text. -/
inductive RestsonError where
  | requestError (msg : String) : RestsonError
  | httpError (status : Nat) (body : String) : RestsonError
  | deserializeParseError (msg : String) : RestsonError
deriving DecidableEq

/-- `to_string` of a restson error: the diagnostic text the client wraps
into `Error::HTTPError`. -/
def RestsonError.toDiagnostic : RestsonError → String
  | .requestError msg => "Failed to make a request: " ++ msg
  | .httpError status body =>
      "HTTP error " ++ toString status ++ ": " ++ body
  | .deserializeParseError msg => "Failed to deserialize data: " ++ msg

/-- Modelled from the spec: the authenticated member/profile record the
verification `GET` of `Client::auth` fetches (`crate::account::Member`,
declared in a file not under `src/`); its contents are discarded by
`auth` (`Ok(_)`). -/
structure Member where
  account : Account

/-- Modelled from the spec: the two mutually exclusive credential shapes
of `authenticate` (`crate::account::AuthenticateWith`, declared in a
file not under `src/`): HTTP Basic credentials or a custom `Api-key`
header, exactly as consumed by the match in `Client::auth`. -/
inductive AuthenticateWith where
  | Basic (user : String) (password : String) : AuthenticateWith
  | APIKey (key : String) : AuthenticateWith
deriving DecidableEq

/-- The state of the external restson `RestClient` handle: its base URL
and the standing credentials (`set_auth` stores a Basic pair,
`set_header` stores a header) that accompany every subsequent call. -/
structure RestClientState where
  baseUrl : String
  basicAuth : Option (String × String)
  headers : List (String × String)
deriving DecidableEq

/-- `RestClient::set_auth`: installs the complete Basic credential pair
as the standing authorization. -/
def RestClientState.set_auth (rc : RestClientState) (user password : String) :
    RestClientState :=
  { rc with basicAuth := some (user, password) }

/-- The successful effect of `RestClient::set_header`: the named header
(here `Api-key`) is installed whole, replacing any previous value. -/
def RestClientState.set_header (rc : RestClientState) (name value : String) :
    RestClientState :=
  { rc with headers := (name, value) :: rc.headers.filter (fun h => h.1 ≠ name) }

/-- The outcome of a Rust computation that may `panic!` (via `expect`):
either a value or an unwound panic with its message. -/
inductive Panics (α : Type) where
  | ok (val : α) : Panics α
  | panicked (msg : String) : Panics α
deriving DecidableEq

/-- The `Client` of `src/client.rs` lines 35-40: the authentication
flag, the owned transport handle, and the optional borrowed sender and
receiver accounts. -/
structure Client where
  authenticated : Bool
  restclient : RestClientState
  sender : Option Account
  receiver : Option Account
deriving DecidableEq

/-- The fixed production endpoint of `src/client.rs` (the non-test arm
of the `cfg!(test)` conditional). -/
def API_ENDPOINT : String := "https://www.transdirect.com.au/api/"

/-- `Client::new` (`src/client.rs` lines 43-51).  Constructing the
underlying `RestClient` for the fixed endpoint is an external fallible
operation, passed in as `mkRes`; on its failure `new` panics through
`expect` rather than returning an error. -/
def Client.new (mkRes : Except RestsonError RestClientState) : Panics Client :=
  match mkRes with
  | .ok rc =>
      .ok { authenticated := false, restclient := rc,
            sender := none, receiver := none }
  | .error _ => .panicked "Should be a valid URL or connected to the internet"

/-- The credential-installation step of `Client::auth` (`src/client.rs`
lines 72-75): `Basic` goes through `set_auth`; `APIKey` goes through
`set_header("Api-key", key)`, whose restson-level failure (oracle
`setHeaderRes`) is turned into a panic by `expect`. -/
def Client.installCredential (c : Client) (auth : AuthenticateWith)
    (setHeaderRes : Except RestsonError Unit) : Panics Client :=
  match auth with
  | .Basic user pass =>
      .ok { c with restclient := c.restclient.set_auth user pass }
  | .APIKey key =>
      match setHeaderRes with
      | .ok _ => .ok { c with restclient := c.restclient.set_header "Api-key" key }
      | .error _ => .panicked "Should be able to set Api-key header"

/-- `Client::auth` (`src/client.rs` lines 69-84): install the chosen
credential on the transport handle, then perform the verification
`GET` for the member profile (its transport outcome is the oracle
`getMemberRes`).  On `Ok(_)` set `authenticated = true` and return
`Ok(())`; on `Err(err)` return `Err(Error::HTTPError(err.to_string()))`
leaving the flag untouched. -/
def Client.auth (c : Client) (auth : AuthenticateWith)
    (setHeaderRes : Except RestsonError Unit)
    (getMemberRes : Except RestsonError Member) :
    Panics (Client × Except Error Unit) :=
  match c.installCredential auth setHeaderRes with
  | .panicked msg => .panicked msg
  | .ok c1 =>
      match getMemberRes with
      | .ok _ => .ok ({ c1 with authenticated := true }, .ok ())
      | .error err => .ok (c1, .error (.HTTPError err.toDiagnostic))

/-- `Client::from_auth` (`src/client.rs` lines 53-59): `Self::new()`,
then `Self::auth(&mut newclient, auth)?`, then `Ok(newclient)`. -/
def Client.from_auth (auth : AuthenticateWith)
    (mkRes : Except RestsonError RestClientState)
    (setHeaderRes : Except RestsonError Unit)
    (getMemberRes : Except RestsonError Member) :
    Panics (Except Error Client) :=
  match Client.new mkRes with
  | .panicked msg => .panicked msg
  | .ok newclient =>
      match newclient.auth auth setHeaderRes getMemberRes with
      | .panicked msg => .panicked msg
      | .ok (_, .error e) => .ok (.error e)
      | .ok (c1, .ok _) => .ok (.ok c1)

/-- `Client::from_basic` (`src/client.rs` lines 61-63). -/
def Client.from_basic (user password : String)
    (mkRes : Except RestsonError RestClientState)
    (setHeaderRes : Except RestsonError Unit)
    (getMemberRes : Except RestsonError Member) :
    Panics (Except Error Client) :=
  Client.from_auth (.Basic user password) mkRes setHeaderRes getMemberRes

/-- `Client::from_api_key` (`src/client.rs` lines 65-67). -/
def Client.from_api_key (apikey : String)
    (mkRes : Except RestsonError RestClientState)
    (setHeaderRes : Except RestsonError Unit)
    (getMemberRes : Except RestsonError Member) :
    Panics (Except Error Client) :=
  Client.from_auth (.APIKey apikey) mkRes setHeaderRes getMemberRes

/-- `Client::quotes` (`src/client.rs` lines 86-95): takes `&self` (the
returned client component is the unchanged receiver), performs one
`post_capture` to the booking endpoint (transport outcome `postRes`),
and maps any restson failure through
`Error::HTTPError(e.to_string())`.  The body contains no `expect` or
other panic source, so the result is always `Panics.ok`. -/
def Client.quotes (T U : Type) (c : Client) (_request : BookingRequest T U)
    (postRes : Except RestsonError (BookingResponse T U)) :
    Panics (Client × Except Error (BookingResponse T U)) :=
  match postRes with
  | .ok response => .ok (c, .ok response)
  | .error e => .ok (c, .error (.HTTPError e.toDiagnostic))

/-- Modelled from the spec: the construction variants `from_auth`,
`from_basic`, `from_api_key` are described as convenience wrappers that
call `new()` then `authenticate()` and propagate its result — this
definition follows those words, to be compared with the source
definitions above. -/
def newThenAuthenticate (auth : AuthenticateWith)
    (mkRes : Except RestsonError RestClientState)
    (setHeaderRes : Except RestsonError Unit)
    (getMemberRes : Except RestsonError Member) :
    Panics (Except Error Client) :=
  match Client.new mkRes with
  | .panicked msg => .panicked msg
  | .ok c =>
      match c.auth auth setHeaderRes getMemberRes with
      | .panicked msg => .panicked msg
      | .ok (_, .error e) => .ok (.error e)
      | .ok (c1, .ok _) => .ok (.ok c1)

/-- Any token outside the ten-entry table falls through to the wildcard
arm of the match in `BookingStatus::deserialize`. -/
theorem BookingStatus.parse_eq_error_of_not_mem (s : String)
    (hs : s ∉ knownWireTokens) :
    BookingStatus.parse s = .error unknownStatusError := by
  unfold BookingStatus.parse
  split
  all_goals first
    | rfl
    | (exfalso; apply hs; simp_all [knownWireTokens])

/-- Claim C5: parsing a `BookingStatus` is an exact match against the
fixed ten-token table — each lower-snake-case token maps to its variant
(in particular `"booked_manually"` to `BookedManually`) — and any token
outside that set, including case or whitespace variations, is rejected
with the unknown-status error rather than accepted. -/
theorem bookingStatus_exact_token_table :
    (BookingStatus.deserialize (Json.str "new") = .ok .New ∧
     BookingStatus.deserialize (Json.str "pending_payment") = .ok .PendingPayment ∧
     BookingStatus.deserialize (Json.str "paid") = .ok .Paid ∧
     BookingStatus.deserialize (Json.str "request_sent") = .ok .RequestSent ∧
     BookingStatus.deserialize (Json.str "reviewed") = .ok .Reviewed ∧
     BookingStatus.deserialize (Json.str "confirmed") = .ok .Confirmed ∧
     BookingStatus.deserialize (Json.str "cancelled") = .ok .Cancelled ∧
     BookingStatus.deserialize (Json.str "pending_review") = .ok .PendingReview ∧
     BookingStatus.deserialize (Json.str "request_failed") = .ok .RequestFailed ∧
     BookingStatus.deserialize (Json.str "booked_manually") = .ok .BookedManually) ∧
    ∀ s : String, s ∉ knownWireTokens →
      BookingStatus.deserialize (Json.str s) = .error unknownStatusError := by
  constructor
  · exact ⟨rfl, rfl, rfl, rfl, rfl, rfl, rfl, rfl, rfl, rfl⟩
  · intro s hs
    show BookingStatus.parse s = .error unknownStatusError
    exact BookingStatus.parse_eq_error_of_not_mem s hs

/-- Witness for C5: the accepted tokens are matched exactly — the
upper-case token `"NEW"` and the padded token `" new"` are both outside
the table and rejected with the unknown-status error. -/
theorem bookingStatus_exact_token_table_witness :
    BookingStatus.deserialize (Json.str "NEW") = .error unknownStatusError ∧
    BookingStatus.deserialize (Json.str " new") = .error unknownStatusError :=
  ⟨bookingStatus_exact_token_table.2 "NEW" (by decide),
   bookingStatus_exact_token_table.2 " new" (by decide)⟩

/-- Claim C2: every token outside the ten known wire tokens fails with
the one fixed unknown-status error — the deserializer's distinct
rendering of `UnknownStatus`, different from the structural
type-mismatch failures of the inner string deserializer — and never
falls back to a default variant such as `New`. -/
theorem unknown_token_is_distinct_hard_failure :
    ∀ s : String, s ∉ knownWireTokens →
      BookingStatus.deserialize (Json.str s) = .error unknownStatusError ∧
      (∀ v : BookingStatus, BookingStatus.deserialize (Json.str s) ≠ .ok v) ∧
      (∀ found expected : String,
        unknownStatusError ≠ DeError.invalidType found expected) := by
  intro s hs
  have herr : BookingStatus.deserialize (Json.str s) = .error unknownStatusError :=
    BookingStatus.parse_eq_error_of_not_mem s hs
  refine ⟨herr, ?_, ?_⟩
  · intro v hok
    rw [herr] at hok
    exact Except.noConfusion hok
  · intro found expected h
    exact DeError.noConfusion h

/-- Witness for C2: the token `"not_a_real_status"` is rejected with the
unknown-status error and does not parse to the default variant `New`. -/
theorem unknown_token_is_distinct_hard_failure_witness :
    BookingStatus.deserialize (Json.str "not_a_real_status") =
      .error unknownStatusError ∧
    BookingStatus.deserialize (Json.str "not_a_real_status") ≠
      .ok BookingStatus.New :=
  ⟨(unknown_token_is_distinct_hard_failure "not_a_real_status" (by decide)).1,
   (unknown_token_is_distinct_hard_failure "not_a_real_status" (by decide)).2.1
     BookingStatus.New⟩

/-- Claim C3: `to_wire_token` is the exact inverse of parsing — for
every known `BookingStatus` variant, deserializing its wire token
returns that same variant. -/
theorem to_wire_token_roundtrip (v : BookingStatus) :
    BookingStatus.deserialize (Json.str v.to_wire_token) = .ok v := by
  cases v <;> rfl

/-- Claim C6: a freshly constructed `BookingRequest` has zero declared
value, both tailgate flags false, an empty item sequence, and no sender
or receiver (stated at the count type `Nat` and money type `Rat`). -/
theorem bookingRequest_new_is_empty_default :
    (BookingRequest.new Nat Rat).declared_value = 0 ∧
    (BookingRequest.new Nat Rat).tailgate_pickup = false ∧
    (BookingRequest.new Nat Rat).tailgate_delivery = false ∧
    (BookingRequest.new Nat Rat).items = [] ∧
    (BookingRequest.new Nat Rat).sender = none ∧
    (BookingRequest.new Nat Rat).receiver = none :=
  ⟨rfl, rfl, rfl, rfl, rfl, rfl⟩

/-- Claim C9: a response body carrying `"connote": null` decodes to an
absent connote (`none`), a body carrying `"connote": ""` decodes to the
present empty string (`some ""`), and the two results are distinct —
null and empty string are never conflated. -/
theorem connote_null_distinct_from_empty :
    BookingResponse.decodeConnoteField [("connote", Json.null)] = .ok none ∧
    BookingResponse.decodeConnoteField [("connote", Json.str "")] = .ok (some "") ∧
    BookingResponse.decodeConnoteField [("connote", Json.null)] ≠
      BookingResponse.decodeConnoteField [("connote", Json.str "")] := by
  refine ⟨rfl, rfl, ?_⟩
  intro h
  exact Option.noConfusion (Except.ok.inj h)

/-- A concrete fresh client state over the production endpoint, used to
instantiate the client theorems. -/
def freshClient : Client :=
  { authenticated := false,
    restclient := { baseUrl := API_ENDPOINT, basicAuth := none, headers := [] },
    sender := none,
    receiver := none }

/-- A successful `auth` run always returns a client whose authenticated
flag is set. -/
theorem auth_ok_sets_authenticated (c : Client) (a : AuthenticateWith)
    (setHeaderRes : Except RestsonError Unit)
    (getMemberRes : Except RestsonError Member)
    (c' : Client) (u : Unit)
    (h : c.auth a setHeaderRes getMemberRes = .ok (c', .ok u)) :
    c'.authenticated = true := by
  unfold Client.auth at h
  cases hinst : c.installCredential a setHeaderRes with
  | panicked msg => rw [hinst] at h; exact Panics.noConfusion h
  | ok c1 =>
      rw [hinst] at h
      cases getMemberRes with
      | ok m =>
          injection h with h
          injection h with h1 h2
          rw [← h1]
      | error err =>
          injection h with h
          injection h with h1 h2
          exact Except.noConfusion h2

/-- Claim C1: every failing run of `Client::auth` — the verification
call returning a transport or authorization error — leaves the client
unauthenticated, surfaces the failure as `Err(HTTPError(...))`, and
leaves the standing credentials as the one complete credential that was
installed atomically (the whole Basic pair via `set_auth`, or the whole
`Api-key` header via `set_header`), never a partial mixture. -/
theorem auth_failure_keeps_unauthenticated (c : Client) (a : AuthenticateWith)
    (setHeaderRes : Except RestsonError Unit) (err : RestsonError)
    (hpre : c.authenticated = false) :
    ∀ c' res, c.auth a setHeaderRes (.error err) = .ok (c', res) →
      c'.authenticated = false ∧
      res = .error (.HTTPError err.toDiagnostic) ∧
      (∀ u p, a = .Basic u p → c'.restclient = c.restclient.set_auth u p) ∧
      (∀ k, a = .APIKey k → c'.restclient = c.restclient.set_header "Api-key" k) := by
  intro c' res hrun
  cases a with
  | Basic u p =>
      simp only [Client.auth, Client.installCredential] at hrun
      injection hrun with h
      injection h with h1 h2
      subst h1
      subst h2
      refine ⟨hpre, rfl, ?_, ?_⟩
      · intro u' p' heq
        cases heq
        rfl
      · intro k heq
        exact AuthenticateWith.noConfusion heq
  | APIKey key =>
      cases setHeaderRes with
      | error e =>
          simp only [Client.auth, Client.installCredential] at hrun
          exact Panics.noConfusion hrun
      | ok u0 =>
          simp only [Client.auth, Client.installCredential] at hrun
          injection hrun with h
          injection h with h1 h2
          subst h1
          subst h2
          refine ⟨hpre, rfl, ?_, ?_⟩
          · intro u' p' heq
            exact AuthenticateWith.noConfusion heq
          · intro k heq
            cases heq
            rfl

/-- Witness for C1: a fresh client authenticating with an API key whose
verification call answers 401 stays unauthenticated, receives the
wrapped `HTTPError`, and carries exactly the whole installed header. -/
theorem auth_failure_keeps_unauthenticated_witness :
    freshClient.authenticated = false ∧
    (∀ c' res,
      freshClient.auth (.APIKey "k0") (.ok ())
        (.error (.httpError 401 "Unauthorized")) = .ok (c', res) →
      c'.authenticated = false ∧
      res = .error (.HTTPError
        (RestsonError.toDiagnostic (.httpError 401 "Unauthorized"))) ∧
      (∀ u p, AuthenticateWith.APIKey "k0" = .Basic u p →
        c'.restclient = freshClient.restclient.set_auth u p) ∧
      (∀ k, AuthenticateWith.APIKey "k0" = .APIKey k →
        c'.restclient = freshClient.restclient.set_header "Api-key" k)) :=
  ⟨rfl, auth_failure_keeps_unauthenticated freshClient (.APIKey "k0") (.ok ())
    (.httpError 401 "Unauthorized") rfl⟩

/-- Claim C4: every transport-level failure of `Client::quotes` is
wrapped into the single `HTTPError` kind carrying the underlying
diagnostic text, and a call on a never-authenticated client returns a
value (an `HTTPError` result when the transport fails) rather than
panicking. -/
theorem quotes_failures_become_http_error :
    (∀ (T U : Type) (c : Client) (req : BookingRequest T U) (e : RestsonError),
        Client.quotes T U c req (.error e) =
          .ok (c, .error (.HTTPError e.toDiagnostic))) ∧
    (∀ (T U : Type) (c : Client) (req : BookingRequest T U)
        (postRes : Except RestsonError (BookingResponse T U)),
        c.authenticated = false →
        ∃ out, Client.quotes T U c req postRes = .ok out ∧
          ∀ e, postRes = .error e →
            out.2 = .error (.HTTPError e.toDiagnostic)) := by
  constructor
  · intro T U c req e
    rfl
  · intro T U c req postRes hunauth
    cases postRes with
    | ok r =>
        refine ⟨(c, .ok r), rfl, ?_⟩
        intro e h
        exact Except.noConfusion h
    | error e0 =>
        refine ⟨(c, .error (.HTTPError e0.toDiagnostic)), rfl, ?_⟩
        intro e h
        injection h with h1
        rw [h1]

/-- Witness for C4: a fresh, never-authenticated client whose `POST`
answers 401 gets an `HTTPError` result back from `quotes`. -/
theorem quotes_failures_become_http_error_witness :
    freshClient.authenticated = false ∧
    ∃ out, Client.quotes Nat Rat freshClient (BookingRequest.new Nat Rat)
        (.error (.httpError 401 "Unauthorized")) = .ok out ∧
      ∀ e, (Except.error (.httpError 401 "Unauthorized") :
              Except RestsonError (BookingResponse Nat Rat)) = .error e →
        out.2 = .error (.HTTPError e.toDiagnostic) :=
  ⟨rfl, quotes_failures_become_http_error.2 Nat Rat freshClient
    (BookingRequest.new Nat Rat) (.error (.httpError 401 "Unauthorized")) rfl⟩

/-- Claim C7: `quotes` mutates no client state — on success and on
failure alike it returns (it never panics), and the receiver's
authenticated flag, transport handle with its standing credentials,
sender and receiver are all unchanged. -/
theorem quotes_does_not_mutate_client (T U : Type) (c : Client)
    (req : BookingRequest T U)
    (postRes : Except RestsonError (BookingResponse T U)) :
    ∃ c' res, Client.quotes T U c req postRes = .ok (c', res) ∧
      c'.authenticated = c.authenticated ∧
      c'.restclient = c.restclient ∧
      c'.sender = c.sender ∧
      c'.receiver = c.receiver := by
  cases postRes with
  | ok r => exact ⟨c, .ok r, rfl, rfl, rfl, rfl, rfl⟩
  | error e => exact ⟨c, .error (.HTTPError e.toDiagnostic), rfl, rfl, rfl, rfl, rfl⟩

/-- Claim C8: `from_auth`, `from_basic` and `from_api_key` coincide with
the spec's description — `new()` followed by `authenticate()` with the
corresponding credential shape — and propagate the authentication
result: they return the (now authenticated) client exactly when that
`authenticate()` run succeeds, and return its error otherwise. -/
theorem constructors_are_new_then_authenticate :
    (∀ a mkRes setHeaderRes getMemberRes,
        Client.from_auth a mkRes setHeaderRes getMemberRes =
          newThenAuthenticate a mkRes setHeaderRes getMemberRes) ∧
    (∀ user password mkRes setHeaderRes getMemberRes,
        Client.from_basic user password mkRes setHeaderRes getMemberRes =
          newThenAuthenticate (.Basic user password) mkRes setHeaderRes getMemberRes) ∧
    (∀ key mkRes setHeaderRes getMemberRes,
        Client.from_api_key key mkRes setHeaderRes getMemberRes =
          newThenAuthenticate (.APIKey key) mkRes setHeaderRes getMemberRes) ∧
    (∀ a mkRes setHeaderRes getMemberRes c1,
        Client.from_auth a mkRes setHeaderRes getMemberRes = .ok (.ok c1) →
          c1.authenticated = true ∧
          ∃ c0 u, Client.new mkRes = .ok c0 ∧
            c0.auth a setHeaderRes getMemberRes = .ok (c1, .ok u)) ∧
    (∀ a mkRes setHeaderRes getMemberRes e,
        Client.from_auth a mkRes setHeaderRes getMemberRes = .ok (.error e) →
          ∃ c0 c1, Client.new mkRes = .ok c0 ∧
            c0.auth a setHeaderRes getMemberRes = .ok (c1, .error e)) := by
  refine ⟨fun a mk sh gm => rfl, fun u p mk sh gm => rfl, fun k mk sh gm => rfl,
    ?_, ?_⟩
  · intro a mkRes setHeaderRes getMemberRes c1 h
    unfold Client.from_auth at h
    split at h
    · exact Panics.noConfusion h
    · rename_i c0 hnew
      split at h
      · exact Panics.noConfusion h
      · exact absurd (Panics.ok.inj h) (fun hx => Except.noConfusion hx)
      · rename_i ca u hauth
        injection h with h
        injection h with h
        subst h
        exact ⟨auth_ok_sets_authenticated c0 a setHeaderRes getMemberRes
          ca u hauth, c0, u, hnew, hauth⟩
  · intro a mkRes setHeaderRes getMemberRes e h
    unfold Client.from_auth at h
    split at h
    · exact Panics.noConfusion h
    · rename_i c0 hnew
      split at h
      · exact Panics.noConfusion h
      · rename_i ca e0 hauth
        injection h with h
        injection h with h
        subst h
        exact ⟨c0, ca, hnew, hauth⟩
      · exact absurd (Panics.ok.inj h) (fun hx => Except.noConfusion hx)

/-- Witness for C8: with a transport handle that constructs, an API key
whose header installs, and a verification call that succeeds, the
propagation conjuncts apply to the concrete `from_auth` run. -/
theorem constructors_are_new_then_authenticate_witness :
    Client.from_auth (.APIKey "k0")
        (.ok { baseUrl := API_ENDPOINT, basicAuth := none, headers := [] })
        (.ok ()) (.ok { account := Account.mk "" "" "" 0 "" "" "" "" "" }) =
      .ok (.ok { authenticated := true,
                 restclient := { baseUrl := API_ENDPOINT, basicAuth := none,
                                 headers := [("Api-key", "k0")] },
                 sender := none, receiver := none }) ∧
    ({ authenticated := true,
       restclient := { baseUrl := API_ENDPOINT, basicAuth := none,
                       headers := [("Api-key", "k0")] },
       sender := none, receiver := none } : Client).authenticated = true :=
  ⟨rfl,
   (constructors_are_new_then_authenticate.2.2.2.1 (.APIKey "k0")
      (.ok { baseUrl := API_ENDPOINT, basicAuth := none, headers := [] })
      (.ok ()) (.ok { account := Account.mk "" "" "" 0 "" "" "" "" "" })
      { authenticated := true,
        restclient := { baseUrl := API_ENDPOINT, basicAuth := none,
                        headers := [("Api-key", "k0")] },
        sender := none, receiver := none } rfl).1⟩

/-- Claim C10: with an `APIKey` credential, `auth` installs the
`Api-key` header ahead of the verification call and turns a failing
`set_header` into a panic (the `expect`), never an `Err`; a failing
verification `GET` after a successful header install is the case
returned as `Err(HTTPError(...))`, with the header already on the
handle; and `Client::new` panics when the transport client cannot be
constructed. -/
theorem apikey_set_header_and_new_panic :
    (∀ (c : Client) (key : String) (e : RestsonError)
        (getMemberRes : Except RestsonError Member),
        c.auth (.APIKey key) (.error e) getMemberRes =
          .panicked "Should be able to set Api-key header") ∧
    (∀ (c : Client) (key : String) (err : RestsonError),
        c.auth (.APIKey key) (.ok ()) (.error err) =
          .ok ({ c with restclient := c.restclient.set_header "Api-key" key },
               .error (.HTTPError err.toDiagnostic))) ∧
    (∀ e : RestsonError,
        Client.new (.error e) =
          .panicked "Should be a valid URL or connected to the internet") :=
  ⟨fun _ _ _ _ => rfl, fun _ _ _ => rfl, fun _ => rfl⟩
